import Mathlib

/-!
Shallow embedding of the lotusticket transaction-reconciliation core
(`src/core/matching_engine.py`, `src/services/reconciliation_service.py`,
`src/services/reporting_service.py`).

Modelling conventions:
* Python floats (purchase totals, confidence scores) are modelled as exact
  rationals `ℚ`; the literals 0.01, 1.0, 5.0, 0.40, 0.30, 0.20, 0.75 of the
  source become the rationals 1/100, 1, 5, 40/100, 30/100, 20/100, 75/100.
* Python `datetime` values are modelled at day granularity as integers
  (day numbers); `(d2 - d1).days` becomes integer subtraction, which is what
  the source computes for midnight timestamps.
* A Python value that may be `None`, a string, or some non-string object
  (the `internalNotes` field fed to the extraction helpers) is modelled by
  the inductive type `PyStr`.
* `str.__contains__` (the `in` operator) is modelled by `pyIn`, an
  executable substring test on character lists.
* The interactive breakpoint `import ipdb; ipdb.set_trace()` at the top of
  `reconcile_transactions` is an ad hoc debugging halt with no effect on the
  computed result when execution proceeds; it is modelled as a no-op.
-/

namespace LotusTicket

/-- Is `needle` a prefix of `hay`? (model of Python string scanning). -/
def strStarts : List Char → List Char → Bool
  | [], _ => true
  | _ :: _, [] => false
  | a :: as, b :: bs => a == b && strStarts as bs

/-- Does `needle` occur as a contiguous run inside `hay`? -/
def strHas (needle : List Char) : List Char → Bool
  | [] => strStarts needle []
  | b :: bs => strStarts needle (b :: bs) || strHas needle bs

/-- Model of Python `needle in hay` for strings. -/
def pyIn (needle hay : String) : Bool :=
  strHas needle.toList hay.toList

/-- A Python value that may be `None`, a `str`, or a non-string object;
the extraction helpers guard on exactly these three shapes
(`if not text or not isinstance(text, str)`). -/
inductive PyStr where
  | noneV
  | str (s : String)
  | nonStr
  deriving DecidableEq, Repr

/-- Characters matched by the regex class `[\w\.-]` (ASCII model of `\w`). -/
def emailClassChar (c : Char) : Bool :=
  c.isAlphanum || c == '_' || c == '.' || c == '-'

/-- Characters matched by `\w` (ASCII model). -/
def wordChar (c : Char) : Bool :=
  c.isAlphanum || c == '_'

/-- Backtracking step of `[\w\.-]+\.\w+` inside the already-consumed greedy
class run: find the last `.` that is preceded by at least the characters
seen so far and followed by a word character; returns the part before the
dot and the part after it. -/
def splitLastDot : List Char → Option (List Char × List Char)
  | [] => none
  | c :: rest =>
    match splitLastDot rest with
    | some (b, a) => some (c :: b, a)
    | none =>
      if c == '.' then
        match rest with
        | w :: _ => if wordChar w then some ([], rest) else none
        | [] => none
      else none

/-- Attempt of the regex `[\w\.-]+@[\w\.-]+\.\w+` anchored at the head of
the list (Python `re.search` tries successive start positions). -/
def emailMatchAt (l : List Char) : Option String :=
  let loc := l.takeWhile emailClassChar
  let rest1 := l.dropWhile emailClassChar
  if loc.isEmpty then none
  else
    match rest1 with
    | '@' :: rest2 =>
      let dom := rest2.takeWhile emailClassChar
      match splitLastDot dom with
      | some (d, a) =>
        if d.isEmpty then none
        else
          let tld := a.takeWhile wordChar
          some (String.mk (loc ++ '@' :: d ++ '.' :: tld))
      | none => none
    | _ => none

/-- Leftmost search of the email regex over the text. -/
def emailSearch : List Char → Option String
  | [] => none
  | c :: rest =>
    match emailMatchAt (c :: rest) with
    | some s => some s
    | none => emailSearch rest

/-- Model of `MatchingEngine._extract_email`: first regex match of
`[\w\.-]+@[\w\.-]+\.\w+` in the notes, `None` on empty / `None` /
non-string input. -/
def extract_email : PyStr → Option String
  | PyStr.str s => if s = "" then none else emailSearch s.toList
  | _ => none

/-- Four consecutive digits at the head of the list (regex `(\d{4})`). -/
def take4Digits : List Char → Option String
  | a :: b :: c :: d :: _ =>
    if a.isDigit && b.isDigit && c.isDigit && d.isDigit then
      some (String.mk [a, b, c, d])
    else none
  | _ => none

/-- Greedy `\s*` (whitespace skip). -/
def dropWs : List Char → List Char
  | [] => []
  | c :: rest => if c.isWhitespace then dropWs rest else c :: rest

/-- Regex `CC#\s*(\d{4})` anchored at the head, case-insensitive. -/
def ccHashAt : List Char → Option String
  | c1 :: c2 :: h :: rest =>
    if c1.toLower == 'c' && c2.toLower == 'c' && h == '#' then
      take4Digits (dropWs rest)
    else none
  | _ => none

/-- Regex `CC:\s*(\d{4})` anchored at the head, case-insensitive. -/
def ccColonAt : List Char → Option String
  | c1 :: c2 :: h :: rest =>
    if c1.toLower == 'c' && c2.toLower == 'c' && h == ':' then
      take4Digits (dropWs rest)
    else none
  | _ => none

/-- Regex `CC\s+(\d{4})` anchored at the head, case-insensitive. -/
def ccWsAt : List Char → Option String
  | c1 :: c2 :: w :: rest =>
    if c1.toLower == 'c' && c2.toLower == 'c' && w.isWhitespace then
      take4Digits (dropWs rest)
    else none
  | _ => none

/-- Regex `#(\d{4})` anchored at the head. -/
def hashAt : List Char → Option String
  | h :: rest => if h == '#' then take4Digits rest else none
  | [] => none

/-- Regex `cc\s?(\d{4})` anchored at the head, case-insensitive. -/
def ccOptWsAt : List Char → Option String
  | c1 :: c2 :: rest =>
    if c1.toLower == 'c' && c2.toLower == 'c' then
      match rest with
      | w :: rest2 => if w.isWhitespace then take4Digits rest2 else take4Digits rest
      | [] => none
    else none
  | _ => none

/-- Leftmost `re.search` of one anchored pattern over the text. -/
def reSearch (m : List Char → Option String) : List Char → Option String
  | [] => m []
  | c :: rest =>
    match m (c :: rest) with
    | some s => some s
    | none => reSearch m rest

/-- Model of `MatchingEngine._extract_last_four`: the five card-number
patterns tried in the fixed source order, stopping at the first pattern
that matches anywhere; `None` on empty / `None` / non-string input. -/
def extract_last_four : PyStr → Option String
  | PyStr.str s =>
    if s = "" then none
    else
      let l := s.toList
      match reSearch ccHashAt l with
      | some r => some r
      | none =>
        match reSearch ccColonAt l with
        | some r => some r
        | none =>
          match reSearch ccWsAt l with
          | some r => some r
          | none =>
            match reSearch hashAt l with
            | some r => some r
            | none => reSearch ccOptWsAt l
  | _ => none

/-- A Skybox purchase record, as consumed by the matching engine.
`total` is the decimal amount owed; `createdDate` is the creation timestamp
(day number); `externalRef` is the optional order-number string;
`internalNotes` is the free-text notes value fed to the extraction helpers. -/
structure Purchase where
  id : Int
  total : ℚ
  createdDate : Int
  createdBy : String
  externalRef : Option String
  internalNotes : PyStr
  eventName : String
  deriving DecidableEq, Repr

/-- A Reveal banking transaction. `amount` is the signed integer minor-unit
value (the engine always takes `abs(amount) / 100`); `date` is the posting
day; `extended_description` may be absent or `None` (the source coalesces
with `or ''`); `last_four` and `sub_account` feed the last-4 signal via
`reveal_txn.get('last_four') or reveal_txn.get('sub_account', '')`. -/
structure RevealTxn where
  id : Int
  amount : Int
  date : Int
  description : String
  extended_description : Option String
  last_four : Option String
  sub_account : String
  deriving DecidableEq, Repr

/-- The metadata dict built by `_extract_skybox_metadata`. -/
structure PurchaseMeta where
  id : Int
  amount : ℚ
  created_date : Int
  is_automated : Bool
  external_ref : Option String
  internal_notes : PyStr
  email : Option String
  last_four : Option String
  deriving DecidableEq, Repr

/-- The per-strategy `metadata` dict attached to a `MatchResult`. -/
inductive MatchMeta where
  | orderMeta (order_number : String) (amount_diff : ℚ)
  | multiMeta (amount_diff : ℚ) (is_automated : Bool)
  deriving DecidableEq, Repr

/-- Result of a matching attempt (`MatchResult` dataclass). -/
structure MatchResult where
  skybox_id : Int
  reveal_id : Int
  confidence_score : ℚ
  match_criteria : List String
  metadata : MatchMeta
  deriving DecidableEq, Repr

/-- Model of `MatchingEngine._extract_skybox_metadata`. -/
def extract_skybox_metadata (p : Purchase) : PurchaseMeta :=
  { id := p.id
    amount := p.total
    created_date := p.createdDate
    is_automated := p.createdBy == "SeatScouts" || p.createdBy == "Lotus Tickets Sale Tracking"
    external_ref := p.externalRef
    internal_notes := p.internalNotes
    email := extract_email p.internalNotes
    last_four := extract_last_four p.internalNotes }

/-- `abs(reveal_txn['amount']) / 100`: the transaction's currency amount. -/
def revealAmount (t : RevealTxn) : ℚ :=
  (t.amount.natAbs : ℚ) / 100

/-- `abs(reveal_amount - purchase_amount)`. -/
def amountDiff (purchaseAmount : ℚ) (t : RevealTxn) : ℚ :=
  |revealAmount t - purchaseAmount|

/-- `reveal_txn.get('extended_description', '') or ''`. -/
def extDescStr (t : RevealTxn) : String :=
  t.extended_description.getD ""

/-- `reveal_txn.get('last_four') or reveal_txn.get('sub_account', '')`:
a falsy (`None` or empty) `last_four` falls back to `sub_account`. -/
def revealLast4 (t : RevealTxn) : String :=
  match t.last_four with
  | some s => if s = "" then t.sub_account else s
  | none => t.sub_account

/-- Model of `MatchingEngine._match_by_order_number` (strategy 1):
non-empty external reference occurring as a substring of the description or
extended description, plus currency amount within 0.01 of the purchase
total, yields confidence 1.0 with criteria `[order_number, amount]`. -/
def match_by_order_number (pm : PurchaseMeta) (t : RevealTxn) : Option MatchResult :=
  match pm.external_ref with
  | none => none
  | some order_num =>
    if order_num = "" then none
    else if pyIn order_num t.description || pyIn order_num (extDescStr t) then
      if amountDiff pm.amount t < 1/100 then
        some { skybox_id := pm.id
               reveal_id := t.id
               confidence_score := 1
               match_criteria := ["order_number", "amount"]
               metadata := MatchMeta.orderMeta order_num 0 }
      else none
    else none

/-- The amount signal of strategy 2: weight and criterion tag, or rejection
(`None`) when the difference is at least 1.0 — this signal is mandatory. -/
def amountSignal (pm : PurchaseMeta) (t : RevealTxn) : Option (ℚ × String) :=
  if amountDiff pm.amount t < 1/100 then some (40/100, "amount_exact")
  else if amountDiff pm.amount t < 1 then some (20/100, "amount_close")
  else none

/-- `abs((reveal_date - created_date).days)` at day granularity. -/
def dateDiff (pm : PurchaseMeta) (t : RevealTxn) : Int :=
  |t.date - pm.created_date|

/-- The date-proximity signal of strategy 2: weight and criterion tags. -/
def dateSignal (pm : PurchaseMeta) (t : RevealTxn) : ℚ × List String :=
  if dateDiff pm t ≤ 0 then (30/100, ["date_same_day"])
  else if dateDiff pm t ≤ 3 then (20/100, ["date_within_3_days"])
  else (0, [])

/-- The last-4-digits signal of strategy 2: fires when the purchase notes
yielded a truthy last-4 string that occurs in the transaction's
`last_four`-or-`sub_account` text. -/
def lastFourSignal (pm : PurchaseMeta) (t : RevealTxn) : ℚ × List String :=
  match pm.last_four with
  | some l4 =>
    if l4 = "" then (0, [])
    else if pyIn l4 (revealLast4 t) then (20/100, ["last_four"])
    else (0, [])
  | none => (0, [])

/-- The weighted score and criteria accumulated by
`_match_by_multiple_criteria` before the 0.75 acceptance test;
`None` when the mandatory amount signal rejects. -/
def multi_criteria_eval (pm : PurchaseMeta) (t : RevealTxn) : Option (ℚ × List String) :=
  match amountSignal pm t with
  | none => none
  | some (as0, ac) =>
    let ds := dateSignal pm t
    let ls := lastFourSignal pm t
    some (as0 + ds.1 + ls.1, ac :: (ds.2 ++ ls.2))

/-- Model of `MatchingEngine._match_by_multiple_criteria` (strategy 2):
weighted sum of amount, date-proximity and last-4 signals, accepted when
the total reaches 0.75. -/
def match_by_multiple_criteria (pm : PurchaseMeta) (t : RevealTxn) : Option MatchResult :=
  match multi_criteria_eval pm t with
  | none => none
  | some (score, criteria) =>
    if score ≥ 75/100 then
      some { skybox_id := pm.id
             reveal_id := t.id
             confidence_score := score
             match_criteria := criteria
             metadata := MatchMeta.multiMeta (amountDiff pm.amount t) pm.is_automated }
    else none

/-- Model of `MatchingEngine._match_by_email_metadata` (strategy 3):
a placeholder that always yields no match. -/
def match_by_email_metadata (_pm : PurchaseMeta) (_t : RevealTxn) : Option MatchResult :=
  none

/-- The per-transaction waterfall inside `match_transactions`: strategy 1,
then strategy 2, then strategy 3, first success wins. -/
def try_strategies (pm : PurchaseMeta) (t : RevealTxn) : Option MatchResult :=
  match match_by_order_number pm t with
  | some r => some r
  | none =>
    match match_by_multiple_criteria pm t with
    | some r => some r
    | none => match_by_email_metadata pm t

/-- One step of Python's `max(..., key=...)` scan: a later element replaces
the current maximum only when its key is strictly greater. -/
def pymaxStep (acc : Option MatchResult) (r : MatchResult) : Option MatchResult :=
  match acc with
  | none => some r
  | some b => if r.confidence_score > b.confidence_score then some r else some b

/-- Python `max(candidates, key=lambda x: x.confidence_score)` on a possibly
empty list: the first element attaining the maximal confidence. -/
def pymax (l : List MatchResult) : Option MatchResult :=
  l.foldl pymaxStep none

/-- Model of `MatchingEngine.match_transactions`: score every transaction
through the waterfall, then return the best-scoring candidate if its
confidence reaches 0.75. -/
def match_transactions (p : Purchase) (reveal_transactions : List RevealTxn) :
    Option MatchResult :=
  let pm := extract_skybox_metadata p
  let candidates := reveal_transactions.filterMap (try_strategies pm)
  match pymax candidates with
  | some best => if best.confidence_score ≥ 75/100 then some best else none
  | none => none

/-- Model of `_filter_candidate_transactions`: keep transactions within
5.00 currency units and 7 days of the purchase. -/
def filter_candidate_transactions (p : Purchase) (all_transactions : List RevealTxn) :
    List RevealTxn :=
  all_transactions.filter fun t =>
    decide (amountDiff p.total t < 5 ∧ |t.date - p.createdDate| ≤ 7)

/-- The per-purchase loop shared by `batch_match_transactions` and
`ReconciliationService._batch_match`: filter candidates, try to match,
append to matched or unmatched. -/
def batch_loop (transactions : List RevealTxn) : List Purchase → List MatchResult × List Purchase
  | [] => ([], [])
  | p :: rest =>
    match match_transactions p (filter_candidate_transactions p transactions) with
    | some r =>
      (r :: (batch_loop transactions rest).1, (batch_loop transactions rest).2)
    | none =>
      ((batch_loop transactions rest).1, p :: (batch_loop transactions rest).2)

/-- `sorted(purchases, key=lambda x: x['createdDate'])` (oldest first;
Python's sort is stable, as is `List.mergeSort`). -/
def sortByCreated (ps : List Purchase) : List Purchase :=
  ps.mergeSort fun a b => a.createdDate ≤ b.createdDate

/-- Model of `batch_match_transactions`: run the per-purchase loop over the
purchases sorted by creation date. -/
def batch_match_transactions (skybox_purchases : List Purchase)
    (reveal_transactions : List RevealTxn) : List MatchResult × List Purchase :=
  batch_loop reveal_transactions (sortByCreated skybox_purchases)

/-- Result of a reconciliation run (`ReconciliationResult` dataclass;
the wall-clock `timestamp` field is omitted from the model). -/
structure ReconciliationResult where
  total_purchases : Nat
  total_transactions : Nat
  matches_found : Nat
  matches_updated : Nat
  unmatched_purchases : Nat
  errors : List String
  matchList : List MatchResult  -- the `matches` field (a Lean keyword)
  deriving DecidableEq, Repr

/-- Model of `ReconciliationService.reconcile_transactions`. The two
collaborator fetches are passed as `Except String` values (an
exception with its message, or the fetched list). The `except Exception`
handler builds its result from `len(purchases) if 'purchases' in locals()
else 0` (likewise for transactions), which the explicit match cascade
reproduces. The commented-out update step leaves `matches_updated = 0`.
When the happy path reaches the success-rate log line with zero purchases,
`matches_found / total_purchases` raises `ZeroDivisionError`; the blanket
handler catches it and returns the error-path result with
`"division by zero"` recorded — the model makes this branch explicit. -/
def reconcile_transactions (fetchPurchases : Except String (List Purchase))
    (fetchTransactions : Except String (List RevealTxn)) : ReconciliationResult :=
  match fetchPurchases with
  | Except.error e =>
    { total_purchases := 0, total_transactions := 0, matches_found := 0
      matches_updated := 0, unmatched_purchases := 0, errors := [e], matchList := [] }
  | Except.ok purchases =>
    match fetchTransactions with
    | Except.error e =>
      { total_purchases := purchases.length, total_transactions := 0, matches_found := 0
        matches_updated := 0, unmatched_purchases := 0, errors := [e], matchList := [] }
    | Except.ok transactions =>
      let mu := batch_match_transactions purchases transactions
      if purchases.length = 0 then
        { total_purchases := 0, total_transactions := transactions.length
          matches_found := mu.1.length, matches_updated := 0, unmatched_purchases := 0
          errors := ["division by zero"], matchList := mu.1 }
      else
        { total_purchases := purchases.length, total_transactions := transactions.length
          matches_found := mu.1.length, matches_updated := 0
          unmatched_purchases := mu.2.length, errors := [], matchList := mu.1 }

/-- The success-rate computation of `ReportingService._generate_summary`:
`matches_found / total_purchases * 100` guarded to 0 when there are no
purchases. -/
def generate_summary_success_rate (r : ReconciliationResult) : ℚ :=
  if r.total_purchases > 0 then (r.matches_found : ℚ) / (r.total_purchases : ℚ) * 100
  else 0

/-! ### Sample records used to exercise the model on concrete inputs -/

/-- A purchase with the external reference "ORD123" (the spec's end-to-end
example purchase). -/
def pOrd : Purchase :=
  { id := 1, total := 150, createdDate := 0, createdBy := "SeatScouts",
    externalRef := some "ORD123", internalNotes := PyStr.str "",
    eventName := "Ev" }

/-- A transaction whose description contains "ORD123" and whose amount is
15000 minor units (the spec's end-to-end example transaction). -/
def tOrd : RevealTxn :=
  { id := 9, amount := 15000, date := 0,
    description := "Payment ORD123 processed", extended_description := none,
    last_four := none, sub_account := "" }

/-- A second transaction that equally matches "ORD123" (same description
and amount, different id), for exercising the tie-break. -/
def tOrd2 : RevealTxn :=
  { id := 11, amount := 15000, date := 0,
    description := "Payment ORD123 processed", extended_description := none,
    last_four := none, sub_account := "" }

/-- A purchase of total 75.00 with no external reference and empty notes
(the spec's floor-boundary example purchase). -/
def pPlain : Purchase :=
  { id := 2, total := 75, createdDate := 0, createdBy := "x",
    externalRef := none, internalNotes := PyStr.str "", eventName := "Ev" }

/-- A transaction of 7500 minor units on the purchase's day with no card
signal (the spec's floor-boundary example transaction). -/
def tPlain : RevealTxn :=
  { id := 10, amount := 7500, date := 0, description := "desc",
    extended_description := none, last_four := none, sub_account := "" }

/-- A transaction whose amount (10.00) is far (≥ 1.00) from 75.00. -/
def tFar : RevealTxn :=
  { id := 12, amount := 1000, date := 0, description := "desc",
    extended_description := none, last_four := none, sub_account := "" }

/-- The floor-boundary purchase with notes carrying the last-4 digits
"9876" (the spec's "adding a matching last-4 signal" example). -/
def pNotes : Purchase :=
  { id := 2, total := 75, createdDate := 0, createdBy := "x",
    externalRef := none, internalNotes := PyStr.str "paid CC# 9876 ok",
    eventName := "Ev" }

/-- The floor-boundary transaction carrying the matching last-4 "9876". -/
def tCard : RevealTxn :=
  { id := 10, amount := 7500, date := 0, description := "desc",
    extended_description := none, last_four := some "9876",
    sub_account := "" }

/-! ### Lemmas about the Python `max` scan -/

theorem pymaxStep_isSome (acc : Option MatchResult) (r : MatchResult) :
    ∃ b, pymaxStep acc r = some b := by
  cases acc with
  | none => exact ⟨r, rfl⟩
  | some b =>
    by_cases h : r.confidence_score > b.confidence_score
    · exact ⟨r, by simp [pymaxStep, h]⟩
    · exact ⟨b, by simp [pymaxStep, h]⟩

theorem pymax_go_isSome :
    ∀ (l : List MatchResult) (a : MatchResult), ∃ b, l.foldl pymaxStep (some a) = some b
  | [], a => ⟨a, rfl⟩
  | x :: xs, a => by
    simp only [List.foldl_cons]
    obtain ⟨c, hc⟩ := pymaxStep_isSome (some a) x
    rw [hc]
    exact pymax_go_isSome xs c

theorem pymax_go_mem :
    ∀ (l : List MatchResult) (a b : MatchResult),
      l.foldl pymaxStep (some a) = some b → b = a ∨ b ∈ l
  | [], a, b, h => by
    simp only [List.foldl_nil, Option.some.injEq] at h
    exact Or.inl h.symm
  | x :: xs, a, b, h => by
    simp only [List.foldl_cons, pymaxStep] at h
    by_cases hx : x.confidence_score > a.confidence_score
    · rw [if_pos hx] at h
      rcases pymax_go_mem xs x b h with h1 | h1
      · exact Or.inr (h1 ▸ List.mem_cons_self x xs)
      · exact Or.inr (List.mem_cons_of_mem x h1)
    · rw [if_neg hx] at h
      rcases pymax_go_mem xs a b h with h1 | h1
      · exact Or.inl h1
      · exact Or.inr (List.mem_cons_of_mem x h1)

theorem pymax_go_le :
    ∀ (l : List MatchResult) (a b : MatchResult),
      l.foldl pymaxStep (some a) = some b →
      a.confidence_score ≤ b.confidence_score ∧
        ∀ r ∈ l, r.confidence_score ≤ b.confidence_score
  | [], a, b, h => by
    simp only [List.foldl_nil, Option.some.injEq] at h
    subst h
    exact ⟨le_refl _, by simp⟩
  | x :: xs, a, b, h => by
    simp only [List.foldl_cons, pymaxStep] at h
    by_cases hx : x.confidence_score > a.confidence_score
    · rw [if_pos hx] at h
      obtain ⟨h1, h2⟩ := pymax_go_le xs x b h
      refine ⟨le_trans (le_of_lt hx) h1, ?_⟩
      intro r hr
      rcases List.mem_cons.mp hr with rfl | hr
      · exact h1
      · exact h2 r hr
    · rw [if_neg hx] at h
      obtain ⟨h1, h2⟩ := pymax_go_le xs a b h
      refine ⟨h1, ?_⟩
      intro r hr
      rcases List.mem_cons.mp hr with rfl | hr
      · exact le_trans (not_lt.mp hx) h1
      · exact h2 r hr

theorem pymax_mem {l : List MatchResult} {b : MatchResult} (h : pymax l = some b) :
    b ∈ l := by
  cases l with
  | nil => simp [pymax] at h
  | cons x xs =>
    have h' : xs.foldl pymaxStep (some x) = some b := h
    rcases pymax_go_mem xs x b h' with h1 | h1
    · exact h1 ▸ List.mem_cons_self x xs
    · exact List.mem_cons_of_mem x h1

theorem pymax_le {l : List MatchResult} {b : MatchResult} (h : pymax l = some b) :
    ∀ r ∈ l, r.confidence_score ≤ b.confidence_score := by
  cases l with
  | nil => simp [pymax] at h
  | cons x xs =>
    have h' : xs.foldl pymaxStep (some x) = some b := h
    obtain ⟨h1, h2⟩ := pymax_go_le xs x b h'
    intro r hr
    rcases List.mem_cons.mp hr with rfl | hr
    · exact h1
    · exact h2 r hr

theorem pymax_isSome {l : List MatchResult} (h : l ≠ []) : ∃ b, pymax l = some b := by
  cases l with
  | nil => exact absurd rfl h
  | cons x xs => exact pymax_go_isSome xs x

theorem pymax_go_keep :
    ∀ (l : List MatchResult) (b : MatchResult),
      (∀ x ∈ l, x.confidence_score ≤ b.confidence_score) →
      l.foldl pymaxStep (some b) = some b
  | [], _, _ => rfl
  | x :: xs, b, h => by
    have hx : ¬ x.confidence_score > b.confidence_score :=
      not_lt.mpr (h x (List.mem_cons_self x xs))
    simp only [List.foldl_cons, pymaxStep, if_neg hx]
    exact pymax_go_keep xs b fun y hy => h y (List.mem_cons_of_mem x hy)

theorem pymax_go_first :
    ∀ (l₁ : List MatchResult) (a r : MatchResult) (l₂ : List MatchResult),
      a.confidence_score < r.confidence_score →
      (∀ x ∈ l₁, x.confidence_score < r.confidence_score) →
      (∀ x ∈ l₂, x.confidence_score ≤ r.confidence_score) →
      (l₁ ++ r :: l₂).foldl pymaxStep (some a) = some r
  | [], a, r, l₂, ha, _, h₂ => by
    simp only [List.nil_append, List.foldl_cons, pymaxStep, if_pos ha]
    exact pymax_go_keep l₂ r h₂
  | x :: xs, a, r, l₂, ha, h₁, h₂ => by
    simp only [List.cons_append, List.foldl_cons, pymaxStep]
    have hx : x.confidence_score < r.confidence_score := h₁ x (List.mem_cons_self x xs)
    by_cases hxa : x.confidence_score > a.confidence_score
    · rw [if_pos hxa]
      exact pymax_go_first xs x r l₂ hx (fun y hy => h₁ y (List.mem_cons_of_mem x hy)) h₂
    · rw [if_neg hxa]
      exact pymax_go_first xs a r l₂ ha (fun y hy => h₁ y (List.mem_cons_of_mem x hy)) h₂

theorem pymax_first (l₁ : List MatchResult) (r : MatchResult) (l₂ : List MatchResult)
    (h₁ : ∀ x ∈ l₁, x.confidence_score < r.confidence_score)
    (h₂ : ∀ x ∈ l₂, x.confidence_score ≤ r.confidence_score) :
    pymax (l₁ ++ r :: l₂) = some r := by
  cases l₁ with
  | nil =>
    have : pymax (r :: l₂) = l₂.foldl pymaxStep (some r) := rfl
    rw [List.nil_append, this]
    exact pymax_go_keep l₂ r h₂
  | cons x xs =>
    have : pymax ((x :: xs) ++ r :: l₂) = (xs ++ r :: l₂).foldl pymaxStep (some x) := rfl
    rw [this]
    exact pymax_go_first xs x r l₂ (h₁ x (List.mem_cons_self x xs))
      (fun y hy => h₁ y (List.mem_cons_of_mem x hy)) h₂

/-! ### Lemmas about the individual strategies -/

theorem order_number_some {pm : PurchaseMeta} {t : RevealTxn} {r : MatchResult}
    (h : match_by_order_number pm t = some r) :
    r.confidence_score = 1 ∧ r.match_criteria = ["order_number", "amount"] ∧
      r.skybox_id = pm.id ∧ r.reveal_id = t.id := by
  unfold match_by_order_number at h
  cases hext : pm.external_ref with
  | none => rw [hext] at h; exact absurd h (by simp)
  | some o =>
    rw [hext] at h
    dsimp only at h
    split_ifs at h with h1 h2 h3
    obtain rfl := Option.some.inj h
    exact ⟨rfl, rfl, rfl, rfl⟩

theorem amountSignal_some {pm : PurchaseMeta} {t : RevealTxn} {q : ℚ} {tag : String}
    (h : amountSignal pm t = some (q, tag)) :
    q ≤ 40/100 ∧ 0 < q ∧ amountDiff pm.amount t < 1 ∧
      (tag = "amount_exact" ∨ tag = "amount_close") := by
  unfold amountSignal at h
  split_ifs at h with h1 h2
  · obtain ⟨rfl, rfl⟩ := Prod.mk.inj (Option.some.inj h)
    exact ⟨le_refl _, by norm_num, lt_trans h1 (by norm_num), Or.inl rfl⟩
  · obtain ⟨rfl, rfl⟩ := Prod.mk.inj (Option.some.inj h)
    exact ⟨by norm_num, by norm_num, h2, Or.inr rfl⟩

theorem amountSignal_of_lt {pm : PurchaseMeta} {t : RevealTxn}
    (h : amountDiff pm.amount t < 1/100) :
    amountSignal pm t = some (40/100, "amount_exact") := by
  unfold amountSignal
  rw [if_pos h]

theorem dateSignal_bounds (pm : PurchaseMeta) (t : RevealTxn) :
    0 ≤ (dateSignal pm t).1 ∧ (dateSignal pm t).1 ≤ 30/100 := by
  unfold dateSignal
  split_ifs <;> norm_num

theorem dateSignal_pos_dateDiff {pm : PurchaseMeta} {t : RevealTxn}
    (h : (dateSignal pm t).1 ≠ 0) : dateDiff pm t ≤ 3 := by
  unfold dateSignal at h
  split_ifs at h with h1 h2
  · exact le_trans h1 (by norm_num)
  · exact h2
  · exact absurd rfl h

theorem dateSignal_criteria (pm : PurchaseMeta) (t : RevealTxn) :
    (dateSignal pm t).2 = ["date_same_day"] ∨
      (dateSignal pm t).2 = ["date_within_3_days"] ∨ (dateSignal pm t).2 = [] := by
  unfold dateSignal
  split_ifs <;> simp

theorem lastFourSignal_bounds (pm : PurchaseMeta) (t : RevealTxn) :
    0 ≤ (lastFourSignal pm t).1 ∧ (lastFourSignal pm t).1 ≤ 20/100 := by
  unfold lastFourSignal
  cases pm.last_four with
  | none => norm_num
  | some l4 =>
    dsimp only
    split_ifs <;> norm_num

theorem lastFourSignal_of_none {pm : PurchaseMeta} {t : RevealTxn}
    (h : pm.last_four = none) : lastFourSignal pm t = (0, []) := by
  unfold lastFourSignal
  rw [h]

theorem multi_criteria_eval_some {pm : PurchaseMeta} {t : RevealTxn} {s : ℚ}
    {c : List String} (h : multi_criteria_eval pm t = some (s, c)) :
    ∃ q tag, amountSignal pm t = some (q, tag) ∧
      s = q + (dateSignal pm t).1 + (lastFourSignal pm t).1 ∧
      c = tag :: ((dateSignal pm t).2 ++ (lastFourSignal pm t).2) := by
  unfold multi_criteria_eval at h
  cases ha : amountSignal pm t with
  | none => rw [ha] at h; exact absurd h (by simp)
  | some p =>
    rw [ha] at h
    obtain ⟨q, tag⟩ := p
    obtain ⟨h1, h2⟩ := Prod.mk.inj (Option.some.inj h)
    exact ⟨q, tag, rfl, h1.symm, h2.symm⟩

theorem multi_criteria_eval_le {pm : PurchaseMeta} {t : RevealTxn} {s : ℚ}
    {c : List String} (h : multi_criteria_eval pm t = some (s, c)) : s ≤ 9/10 := by
  obtain ⟨q, tag, ha, hs, -⟩ := multi_criteria_eval_some h
  obtain ⟨hq, -, -, -⟩ := amountSignal_some ha
  obtain ⟨-, hd⟩ := dateSignal_bounds pm t
  obtain ⟨-, hl⟩ := lastFourSignal_bounds pm t
  rw [hs]
  linarith

theorem multi_criteria_some {pm : PurchaseMeta} {t : RevealTxn} {r : MatchResult}
    (h : match_by_multiple_criteria pm t = some r) :
    75/100 ≤ r.confidence_score ∧ r.confidence_score ≤ 9/10 ∧
      r.skybox_id = pm.id ∧ r.reveal_id = t.id ∧
      multi_criteria_eval pm t = some (r.confidence_score, r.match_criteria) := by
  unfold match_by_multiple_criteria at h
  cases he : multi_criteria_eval pm t with
  | none => rw [he] at h; exact absurd h (by simp)
  | some p =>
    obtain ⟨s', c'⟩ := p
    rw [he] at h
    dsimp only at h
    split_ifs at h with hs
    obtain rfl := Option.some.inj h
    exact ⟨hs, multi_criteria_eval_le he, rfl, rfl, rfl⟩

theorem try_strategies_cases {pm : PurchaseMeta} {t : RevealTxn} {r : MatchResult}
    (h : try_strategies pm t = some r) :
    match_by_order_number pm t = some r ∨ match_by_multiple_criteria pm t = some r := by
  unfold try_strategies at h
  split at h
  next x heq => exact Or.inl (heq.trans h)
  next heq =>
    split at h
    next x heq2 => exact Or.inr (heq2.trans h)
    next heq2 => exact absurd h (by simp [match_by_email_metadata])

theorem try_strategies_conf_le_one {pm : PurchaseMeta} {t : RevealTxn} {r : MatchResult}
    (h : try_strategies pm t = some r) : r.confidence_score ≤ 1 := by
  rcases try_strategies_cases h with h1 | h1
  · exact le_of_eq (order_number_some h1).1
  · exact le_trans (multi_criteria_some h1).2.1 (by norm_num)

theorem try_strategies_conf_ge {pm : PurchaseMeta} {t : RevealTxn} {r : MatchResult}
    (h : try_strategies pm t = some r) : 75/100 ≤ r.confidence_score := by
  rcases try_strategies_cases h with h1 | h1
  · rw [(order_number_some h1).1]; norm_num
  · exact (multi_criteria_some h1).1

theorem try_strategies_conf_one {pm : PurchaseMeta} {t : RevealTxn} {r : MatchResult}
    (h : try_strategies pm t = some r) (h1 : 1 ≤ r.confidence_score) :
    match_by_order_number pm t = some r := by
  rcases try_strategies_cases h with h2 | h2
  · exact h2
  · have := (multi_criteria_some h2).2.1
    linarith

theorem try_strategies_ids {pm : PurchaseMeta} {t : RevealTxn} {r : MatchResult}
    (h : try_strategies pm t = some r) : r.skybox_id = pm.id ∧ r.reveal_id = t.id := by
  rcases try_strategies_cases h with h1 | h1
  · exact ⟨(order_number_some h1).2.2.1, (order_number_some h1).2.2.2⟩
  · exact ⟨(multi_criteria_some h1).2.2.1, (multi_criteria_some h1).2.2.2.1⟩

/-! ### Lemmas about per-purchase selection and the batch loop -/

theorem match_transactions_some {p : Purchase} {ts : List RevealTxn} {r : MatchResult}
    (h : match_transactions p ts = some r) :
    ∃ t ∈ ts, try_strategies (extract_skybox_metadata p) t = some r := by
  simp only [match_transactions] at h
  split at h
  next best hb =>
    split_ifs at h with hq
    obtain rfl := Option.some.inj h
    obtain ⟨t, ht, htry⟩ := List.mem_filterMap.mp (pymax_mem hb)
    exact ⟨t, ht, htry⟩
  next hb => exact absurd h (by simp)

theorem match_transactions_skybox_id {p : Purchase} {ts : List RevealTxn} {r : MatchResult}
    (h : match_transactions p ts = some r) : r.skybox_id = p.id := by
  obtain ⟨t, -, htry⟩ := match_transactions_some h
  exact (try_strategies_ids htry).1

theorem batch_loop_cons_some {ts : List RevealTxn} {p : Purchase} {rest : List Purchase}
    {r : MatchResult}
    (hm : match_transactions p (filter_candidate_transactions p ts) = some r) :
    batch_loop ts (p :: rest) =
      (r :: (batch_loop ts rest).1, (batch_loop ts rest).2) := by
  simp only [batch_loop, hm]

theorem batch_loop_cons_none {ts : List RevealTxn} {p : Purchase} {rest : List Purchase}
    (hm : match_transactions p (filter_candidate_transactions p ts) = none) :
    batch_loop ts (p :: rest) =
      ((batch_loop ts rest).1, p :: (batch_loop ts rest).2) := by
  simp only [batch_loop, hm]

theorem batch_loop_partition (ts : List RevealTxn) :
    ∀ l : List Purchase,
      (batch_loop ts l).1.length + (batch_loop ts l).2.length = l.length ∧
        List.Perm
          ((batch_loop ts l).1.map MatchResult.skybox_id ++
            (batch_loop ts l).2.map Purchase.id)
          (l.map Purchase.id)
  | [] => ⟨rfl, List.Perm.refl _⟩
  | p :: rest => by
    obtain ⟨ih1, ih2⟩ := batch_loop_partition ts rest
    cases hm : match_transactions p (filter_candidate_transactions p ts) with
    | some r =>
      rw [batch_loop_cons_some hm]
      constructor
      · simp only [List.length_cons]
        omega
      · have hid : r.skybox_id = p.id := match_transactions_skybox_id hm
        simp only [List.map_cons, List.cons_append, List.map]
        rw [hid]
        exact List.Perm.cons p.id ih2
    | none =>
      rw [batch_loop_cons_none hm]
      constructor
      · simp only [List.length_cons]
        omega
      · simp only [List.map_cons, List.map]
        exact List.Perm.trans List.perm_middle (List.Perm.cons p.id ih2)

/-! ### Forward-direction computation lemmas -/

theorem match_by_order_number_eq {pm : PurchaseMeta} {t : RevealTxn} {ref : String}
    (href : pm.external_ref = some ref) (hne : ref ≠ "")
    (hsub : (pyIn ref t.description || pyIn ref (extDescStr t)) = true)
    (hamt : amountDiff pm.amount t < 1/100) :
    match_by_order_number pm t =
      some { skybox_id := pm.id, reveal_id := t.id, confidence_score := 1,
             match_criteria := ["order_number", "amount"],
             metadata := MatchMeta.orderMeta ref 0 } := by
  simp only [match_by_order_number, href]
  rw [if_neg hne, if_pos hsub, if_pos hamt]

theorem match_by_order_number_none_of_ref {pm : PurchaseMeta} {t : RevealTxn}
    (h : pm.external_ref = none) : match_by_order_number pm t = none := by
  simp only [match_by_order_number, h]

theorem match_by_order_number_none_of_amount {pm : PurchaseMeta} {t : RevealTxn}
    (h : ¬ amountDiff pm.amount t < 1/100) : match_by_order_number pm t = none := by
  simp only [match_by_order_number]
  cases pm.external_ref with
  | none => rfl
  | some o =>
    dsimp only
    by_cases h1 : o = ""
    · rw [if_pos h1]
    · rw [if_neg h1]
      by_cases h2 : (pyIn o t.description || pyIn o (extDescStr t)) = true
      · rw [if_pos h2, if_neg h]
      · rw [if_neg h2]

theorem amountSignal_none_of_ge {pm : PurchaseMeta} {t : RevealTxn}
    (h : ¬ amountDiff pm.amount t < 1) : amountSignal pm t = none := by
  unfold amountSignal
  rw [if_neg fun hc => h (lt_trans hc (by norm_num)), if_neg h]

theorem multi_criteria_eval_eq {pm : PurchaseMeta} {t : RevealTxn} {q : ℚ} {tag : String}
    (ha : amountSignal pm t = some (q, tag)) :
    multi_criteria_eval pm t =
      some (q + (dateSignal pm t).1 + (lastFourSignal pm t).1,
        tag :: ((dateSignal pm t).2 ++ (lastFourSignal pm t).2)) := by
  unfold multi_criteria_eval
  rw [ha]

theorem multi_criteria_none_of_amount {pm : PurchaseMeta} {t : RevealTxn}
    (h : ¬ amountDiff pm.amount t < 1) : match_by_multiple_criteria pm t = none := by
  unfold match_by_multiple_criteria multi_criteria_eval
  rw [amountSignal_none_of_ge h]

theorem multi_criteria_none_of_low {pm : PurchaseMeta} {t : RevealTxn} {s : ℚ}
    {c : List String} (he : multi_criteria_eval pm t = some (s, c)) (h : s < 75/100) :
    match_by_multiple_criteria pm t = none := by
  unfold match_by_multiple_criteria
  rw [he]
  dsimp only
  rw [if_neg (not_le.mpr h)]

theorem multi_criteria_some_of_high {pm : PurchaseMeta} {t : RevealTxn} {s : ℚ}
    {c : List String} (he : multi_criteria_eval pm t = some (s, c)) (h : 75/100 ≤ s) :
    match_by_multiple_criteria pm t =
      some { skybox_id := pm.id, reveal_id := t.id, confidence_score := s,
             match_criteria := c,
             metadata := MatchMeta.multiMeta (amountDiff pm.amount t) pm.is_automated } := by
  unfold match_by_multiple_criteria
  rw [he]
  dsimp only
  rw [if_pos h]

theorem dateSignal_same_day {pm : PurchaseMeta} {t : RevealTxn}
    (h : dateDiff pm t ≤ 0) : dateSignal pm t = (30/100, ["date_same_day"]) := by
  unfold dateSignal
  rw [if_pos h]

theorem try_strategies_of_order {pm : PurchaseMeta} {t : RevealTxn} {r : MatchResult}
    (h : match_by_order_number pm t = some r) : try_strategies pm t = some r := by
  simp only [try_strategies, h]

theorem try_strategies_of_none {pm : PurchaseMeta} {t : RevealTxn}
    (h1 : match_by_order_number pm t = none)
    (h2 : match_by_multiple_criteria pm t = none) : try_strategies pm t = none := by
  simp only [try_strategies, h1, h2, match_by_email_metadata]

theorem match_transactions_of_pymax {p : Purchase} {ts : List RevealTxn} {b : MatchResult}
    (hb : pymax (ts.filterMap (try_strategies (extract_skybox_metadata p))) = some b)
    (hq : 75/100 ≤ b.confidence_score) : match_transactions p ts = some b := by
  simp only [match_transactions, hb]
  rw [if_pos hq]

theorem match_transactions_of_nil {p : Purchase} {ts : List RevealTxn}
    (h : ts.filterMap (try_strategies (extract_skybox_metadata p)) = []) :
    match_transactions p ts = none := by
  simp only [match_transactions, h, pymax, List.foldl_nil]

/-! ### Claim theorems -/

/-- Claim C1: for every purchase with a non-empty external reference and every
transaction whose description or extended description contains that
reference as a substring and whose currency amount (`abs(amount)/100`)
differs from the purchase total by less than 0.01, the order-number
strategy returns a match result with confidence exactly 1.0 and criteria
`[order_number, amount]`; selecting over any candidate list containing such
a transaction yields a match with confidence 1.0 whose criteria contain
`order_number`. -/
theorem C1_order_number_strategy (p : Purchase) (t : RevealTxn) (ts : List RevealTxn)
    (ref : String) (href : p.externalRef = some ref) (hne : ref ≠ "")
    (hsub : pyIn ref t.description = true ∨ pyIn ref (extDescStr t) = true)
    (hamt : amountDiff p.total t < 1/100) :
    match_by_order_number (extract_skybox_metadata p) t =
      some { skybox_id := p.id, reveal_id := t.id, confidence_score := 1,
             match_criteria := ["order_number", "amount"],
             metadata := MatchMeta.orderMeta ref 0 } ∧
    (t ∈ ts → ∃ r, match_transactions p ts = some r ∧
      r.confidence_score = 1 ∧ "order_number" ∈ r.match_criteria) := by
  have hsub' : (pyIn ref t.description || pyIn ref (extDescStr t)) = true := by
    rcases hsub with h | h <;> simp [h]
  have href' : (extract_skybox_metadata p).external_ref = some ref := href
  have hamt' : amountDiff (extract_skybox_metadata p).amount t < 1/100 := hamt
  have horder := @match_by_order_number_eq (extract_skybox_metadata p) t ref href' hne hsub' hamt'
  refine ⟨horder, fun ht => ?_⟩
  obtain ⟨R, horderR⟩ : ∃ R, match_by_order_number (extract_skybox_metadata p) t = some R :=
    ⟨_, horder⟩
  have hRconf : R.confidence_score = 1 := (order_number_some horderR).1
  have htry : try_strategies (extract_skybox_metadata p) t = some R :=
    try_strategies_of_order horderR
  have hmem : R ∈ ts.filterMap (try_strategies (extract_skybox_metadata p)) :=
    List.mem_filterMap.mpr ⟨t, ht, htry⟩
  obtain ⟨b, hb⟩ := pymax_isSome (List.ne_nil_of_mem hmem)
  have h1le : (1 : ℚ) ≤ b.confidence_score := hRconf ▸ pymax_le hb R hmem
  obtain ⟨t', ht', htry'⟩ := List.mem_filterMap.mp (pymax_mem hb)
  have hbeq : b.confidence_score = 1 :=
    le_antisymm (try_strategies_conf_le_one htry') h1le
  have hcrit : b.match_criteria = ["order_number", "amount"] :=
    (order_number_some (try_strategies_conf_one htry' (le_of_eq hbeq.symm))).2.1
  refine ⟨b, match_transactions_of_pymax hb ?_, hbeq, ?_⟩
  · rw [hbeq]; norm_num
  · rw [hcrit]; simp

/-- Claim C2: for every purchase and transaction whose currency-amount difference
is at least 1.00, the scorer returns no result for the pair — the
order-number strategy cannot fire (1.00 ≥ 0.01), the multi-criteria
strategy rejects outright on the mandatory amount signal, and the email
strategy always returns no match. -/
theorem C2_amount_mandatory (p : Purchase) (t : RevealTxn)
    (hamt : 1 ≤ amountDiff p.total t) :
    try_strategies (extract_skybox_metadata p) t = none ∧
    match_by_order_number (extract_skybox_metadata p) t = none ∧
    match_by_multiple_criteria (extract_skybox_metadata p) t = none ∧
    (∀ (pm : PurchaseMeta) (t' : RevealTxn), match_by_email_metadata pm t' = none) := by
  have h1 : ¬ amountDiff (extract_skybox_metadata p).amount t < 1/100 :=
    not_lt.mpr (le_trans (by norm_num) hamt)
  have h2 : ¬ amountDiff (extract_skybox_metadata p).amount t < 1 := not_lt.mpr hamt
  have ho := match_by_order_number_none_of_amount h1
  have hm := multi_criteria_none_of_amount h2
  exact ⟨try_strategies_of_none ho hm, ho, hm, fun _ _ => rfl⟩

/-- Claim C3: a purchase with no external reference, matched against a
transaction with an exact amount match (difference < 0.01) on the same
calendar day and no extractable last-4 signal, scores exactly
0.70 = 0.40 (amount_exact) + 0.30 (date_same_day) in the multi-criteria
strategy, which is below the 0.75 floor, so the purchase does not match
the transaction. -/
theorem C3_floor_boundary (p : Purchase) (t : RevealTxn)
    (href : p.externalRef = none)
    (hamt : amountDiff p.total t < 1/100)
    (hdate : t.date = p.createdDate)
    (hl4 : extract_last_four p.internalNotes = none) :
    multi_criteria_eval (extract_skybox_metadata p) t =
      some (7/10, ["amount_exact", "date_same_day"]) ∧
    match_by_multiple_criteria (extract_skybox_metadata p) t = none ∧
    match_transactions p [t] = none := by
  have hdd : dateDiff (extract_skybox_metadata p) t ≤ 0 := by
    unfold dateDiff
    have : t.date - (extract_skybox_metadata p).created_date = 0 := by
      show t.date - p.createdDate = 0
      rw [hdate, sub_self]
    rw [this]
    simp
  have hds : dateSignal (extract_skybox_metadata p) t = (30/100, ["date_same_day"]) :=
    dateSignal_same_day hdd
  have hls : lastFourSignal (extract_skybox_metadata p) t = (0, []) :=
    lastFourSignal_of_none hl4
  have hamt' : amountDiff (extract_skybox_metadata p).amount t < 1/100 := hamt
  have heval : multi_criteria_eval (extract_skybox_metadata p) t =
      some (7/10, ["amount_exact", "date_same_day"]) := by
    rw [multi_criteria_eval_eq (amountSignal_of_lt hamt'), hds, hls]
    norm_num
  have hmulti : match_by_multiple_criteria (extract_skybox_metadata p) t = none :=
    multi_criteria_none_of_low heval (by norm_num)
  have horder : match_by_order_number (extract_skybox_metadata p) t = none :=
    match_by_order_number_none_of_ref href
  have htry : try_strategies (extract_skybox_metadata p) t = none :=
    try_strategies_of_none horder hmulti
  refine ⟨heval, hmulti, match_transactions_of_nil ?_⟩
  rw [List.filterMap_cons, htry]
  rfl

/-- Claim C4: the strategy-2 weighted score is monotonic and capped: the score
decomposes as the amount weight plus the date and last-4 weights, so a
qualifying date or last-4 signal strictly increases the confidence; on an
exact-amount same-day candidate a matching last-4 raises 0.70 to 0.90,
which is accepted; the multi-criteria score never exceeds 0.90; and a
candidate of confidence exactly 1.0 can only come from the order-number
strategy. -/
theorem C4_score_monotonic_capped :
    (∀ (pm : PurchaseMeta) (t : RevealTxn) (r : MatchResult),
        match_by_multiple_criteria pm t = some r → r.confidence_score ≤ 9/10) ∧
    (∀ (pm : PurchaseMeta) (t : RevealTxn) (r : MatchResult),
        try_strategies pm t = some r → r.confidence_score = 1 →
        match_by_order_number pm t = some r) ∧
    (∀ (pm : PurchaseMeta) (t : RevealTxn) (q : ℚ) (tag : String),
        amountSignal pm t = some (q, tag) →
        ∃ s c, multi_criteria_eval pm t = some (s, c) ∧
          s = q + (dateSignal pm t).1 + (lastFourSignal pm t).1 ∧
          (0 < (dateSignal pm t).1 → q + (lastFourSignal pm t).1 < s) ∧
          (0 < (lastFourSignal pm t).1 → q + (dateSignal pm t).1 < s)) ∧
    (∀ (pm : PurchaseMeta) (t : RevealTxn),
        amountDiff pm.amount t < 1/100 → dateDiff pm t ≤ 0 →
        (lastFourSignal pm t).1 = 0 → match_by_multiple_criteria pm t = none) ∧
    (∀ (pm : PurchaseMeta) (t : RevealTxn),
        amountDiff pm.amount t < 1/100 → dateDiff pm t ≤ 0 →
        (lastFourSignal pm t).1 = 20/100 →
        ∃ r, match_by_multiple_criteria pm t = some r ∧
          r.confidence_score = 9/10) := by
  refine ⟨?_, ?_, ?_, ?_, ?_⟩
  · intro pm t r h
    exact (multi_criteria_some h).2.1
  · intro pm t r h h1
    exact try_strategies_conf_one h (le_of_eq h1.symm)
  · intro pm t q tag ha
    refine ⟨_, _, multi_criteria_eval_eq ha, rfl, ?_, ?_⟩ <;> intro hpos <;> linarith
  · intro pm t hamt hdd hl4
    have heval := multi_criteria_eval_eq (amountSignal_of_lt hamt)
    rw [dateSignal_same_day hdd] at heval
    refine multi_criteria_none_of_low heval ?_
    rw [hl4]
    norm_num
  · intro pm t hamt hdd hl4
    have heval := multi_criteria_eval_eq (amountSignal_of_lt hamt)
    rw [dateSignal_same_day hdd] at heval
    have heval' : multi_criteria_eval pm t =
        some (9/10, "amount_exact" :: (["date_same_day"] ++ (lastFourSignal pm t).2)) := by
      rw [heval, hl4]
      norm_num
    exact ⟨_, multi_criteria_some_of_high heval' (by norm_num), rfl⟩

/-- Claim C5: the candidate filter is a superset of strategy-2 acceptance: any
transaction the multi-criteria strategy accepts lies within 5.00 currency
units and 7 days of the purchase, so the pre-scoring filter never removes
a transaction that strategy 2 alone would match. -/
theorem C5_filter_superset (p : Purchase) (t : RevealTxn) (r : MatchResult)
    (ts : List RevealTxn)
    (h : match_by_multiple_criteria (extract_skybox_metadata p) t = some r) :
    (amountDiff p.total t < 5 ∧ |t.date - p.createdDate| ≤ 7) ∧
      (t ∈ ts → t ∈ filter_candidate_transactions p ts) := by
  obtain ⟨hge, -, -, -, he⟩ := multi_criteria_some h
  obtain ⟨q, tag, ha, hs, -⟩ := multi_criteria_eval_some he
  obtain ⟨hq40, -, hlt1, -⟩ := amountSignal_some ha
  have hamt5 : amountDiff p.total t < 5 := lt_trans hlt1 (by norm_num)
  have hlne : (dateSignal (extract_skybox_metadata p) t).1 ≠ 0 := by
    intro h0
    obtain ⟨-, hl20⟩ := lastFourSignal_bounds (extract_skybox_metadata p) t
    have : r.confidence_score ≤ 60/100 := by rw [hs, h0]; linarith
    linarith
  have hdd3 : dateDiff (extract_skybox_metadata p) t ≤ 3 := dateSignal_pos_dateDiff hlne
  have hdate7 : |t.date - p.createdDate| ≤ 7 := le_trans hdd3 (by norm_num)
  refine ⟨⟨hamt5, hdate7⟩, fun ht => ?_⟩
  exact List.mem_filter.mpr ⟨ht, decide_eq_true ⟨hamt5, hdate7⟩⟩

/-- Claim C6: batch matching partitions the input purchases completely and
disjointly: the matched and unmatched lists have lengths summing to the
number of purchases, and the multiset of purchase ids across the two
output lists is exactly the multiset of input purchase ids (each purchase
lands in exactly one list, counted with multiplicity). -/
theorem C6_batch_partition (ps : List Purchase) (ts : List RevealTxn) :
    (batch_match_transactions ps ts).1.length + (batch_match_transactions ps ts).2.length
        = ps.length ∧
      List.Perm
        ((batch_match_transactions ps ts).1.map MatchResult.skybox_id ++
          (batch_match_transactions ps ts).2.map Purchase.id)
        (ps.map Purchase.id) := by
  obtain ⟨h1, h2⟩ := batch_loop_partition ts (sortByCreated ps)
  have hperm : List.Perm (sortByCreated ps) ps :=
    List.mergeSort_perm ps (fun a b => a.createdDate ≤ b.createdDate)
  constructor
  · calc (batch_match_transactions ps ts).1.length
          + (batch_match_transactions ps ts).2.length
        = (sortByCreated ps).length := h1
      _ = ps.length := hperm.length_eq
  · exact List.Perm.trans h2 (hperm.map Purchase.id)

/-- Counterexample to claim C7: when the purchases fetch succeeds with one purchase
and the transactions fetch raises, the handler builds the result from
`len(purchases) if 'purchases' in locals() else 0`, so `total_purchases`
is 1, not 0 — the claim's "zero counts" fails on this input (the error is
still recorded as the single error string). -/
theorem C7_counterexample :
    (reconcile_transactions
        (Except.ok [{ id := 1, total := 150, createdDate := 0, createdBy := "x",
                      externalRef := none, internalNotes := PyStr.noneV,
                      eventName := "" }])
        (Except.error "boom")).errors = ["boom"] ∧
    ¬ (reconcile_transactions
        (Except.ok [{ id := 1, total := 150, createdDate := 0, createdBy := "x",
                      externalRef := none, internalNotes := PyStr.noneV,
                      eventName := "" }])
        (Except.error "boom")).total_purchases = 0 := by
  exact ⟨rfl, by decide⟩

/-- Claim C7 as amended: if the purchases fetch raises, `reconcile_transactions`
returns a result with all counts zero; if the transactions fetch raises,
it returns a result whose `total_purchases` equals the number of purchases
already fetched and whose other counts are zero. In both cases the
exception message is the single recorded error string, no matching is
attempted, and `matches_found` is 0. -/
theorem C7_fetch_failure_amended :
    (∀ (e : String) (ft : Except String (List RevealTxn)),
        reconcile_transactions (Except.error e) ft =
          { total_purchases := 0, total_transactions := 0, matches_found := 0,
            matches_updated := 0, unmatched_purchases := 0, errors := [e],
            matchList := [] }) ∧
    (∀ (purchases : List Purchase) (e : String),
        reconcile_transactions (Except.ok purchases) (Except.error e) =
          { total_purchases := purchases.length, total_transactions := 0,
            matches_found := 0, matches_updated := 0, unmatched_purchases := 0,
            errors := [e], matchList := [] }) :=
  ⟨fun _ _ => rfl, fun _ _ => rfl⟩

/-- Claim C8: a run over zero purchases does not report a 0.0 success rate in the
orchestrator — the success-rate log line `matches_found / total_purchases`
divides by zero, and the blanket handler records "division by zero" in the
result's errors instead; only the reporting service's summary guard
(`generate_summary_success_rate`) yields 0 as the claim describes. -/
theorem C8_zero_purchases_division :
    (reconcile_transactions (Except.ok ([] : List Purchase))
        (Except.ok ([] : List RevealTxn))).errors = ["division by zero"] ∧
    (reconcile_transactions (Except.ok ([] : List Purchase))
        (Except.ok [{ id := 9, amount := 15000, date := 0, description := "d",
                      extended_description := none, last_four := none,
                      sub_account := "" }])).errors = ["division by zero"] ∧
    generate_summary_success_rate
      { total_purchases := 0, total_transactions := 0, matches_found := 0,
        matches_updated := 0, unmatched_purchases := 0, errors := [],
        matchList := [] } = 0 := by
  refine ⟨rfl, rfl, ?_⟩
  unfold generate_summary_success_rate
  norm_num

/-- Claim C9: the free-text extraction helpers are total and non-raising: every
input yields either an extracted string or no value; `None`, the empty
string, and non-string notes all yield no value; and a purchase whose
notes yield no last-4 is still scored by the multi-criteria strategy,
merely losing that one signal (no `last_four` criterion is recorded). -/
theorem C9_extraction_helpers_total :
    (∀ v : PyStr, extract_email v = none ∨ ∃ s, extract_email v = some s) ∧
    (∀ v : PyStr, extract_last_four v = none ∨ ∃ s, extract_last_four v = some s) ∧
    extract_email PyStr.noneV = none ∧
    extract_email (PyStr.str "") = none ∧
    extract_email PyStr.nonStr = none ∧
    extract_last_four PyStr.noneV = none ∧
    extract_last_four (PyStr.str "") = none ∧
    extract_last_four PyStr.nonStr = none ∧
    (∀ (p : Purchase) (t : RevealTxn),
        extract_last_four p.internalNotes = none →
        lastFourSignal (extract_skybox_metadata p) t = (0, []) ∧
        (multi_criteria_eval (extract_skybox_metadata p) t = none ∨
          ∃ s c, multi_criteria_eval (extract_skybox_metadata p) t = some (s, c) ∧
            "last_four" ∉ c)) := by
  refine ⟨?_, ?_, rfl, rfl, rfl, rfl, rfl, rfl, ?_⟩
  · intro v
    cases h : extract_email v with
    | none => exact Or.inl rfl
    | some s => exact Or.inr ⟨s, rfl⟩
  · intro v
    cases h : extract_last_four v with
    | none => exact Or.inl rfl
    | some s => exact Or.inr ⟨s, rfl⟩
  · intro p t hl4
    have hsig : lastFourSignal (extract_skybox_metadata p) t = (0, []) :=
      @lastFourSignal_of_none (extract_skybox_metadata p) t hl4
    refine ⟨hsig, ?_⟩
    cases ha : amountSignal (extract_skybox_metadata p) t with
    | none =>
      left
      unfold multi_criteria_eval
      rw [ha]
    | some qt =>
      obtain ⟨q, tag⟩ := qt
      right
      refine ⟨_, _, multi_criteria_eval_eq ha, ?_⟩
      obtain ⟨-, -, -, htag⟩ := amountSignal_some ha
      rcases htag with rfl | rfl <;>
        rcases dateSignal_criteria (extract_skybox_metadata p) t with hd | hd | hd <;>
          rw [hsig, hd] <;> decide

/-- Claim C10: per-purchase selection is deterministic (the embedding of
`match_transactions` is a pure function of the purchase and the candidate
list) with a first-occurrence tie-break: if a candidate scores at least
0.75, every earlier candidate scores strictly less, and every later one
scores no more, then `match_transactions` returns that candidate's result —
in particular, among several candidates attaining the same maximal
confidence the earliest one in the input list wins. -/
theorem C10_first_occurrence_tie_break (p : Purchase) (ts₁ : List RevealTxn)
    (t : RevealTxn) (ts₂ : List RevealTxn) (r : MatchResult)
    (hr : try_strategies (extract_skybox_metadata p) t = some r)
    (hq : 75/100 ≤ r.confidence_score)
    (h₁ : ∀ t' ∈ ts₁, ∀ r', try_strategies (extract_skybox_metadata p) t' = some r' →
        r'.confidence_score < r.confidence_score)
    (h₂ : ∀ t' ∈ ts₂, ∀ r', try_strategies (extract_skybox_metadata p) t' = some r' →
        r'.confidence_score ≤ r.confidence_score) :
    match_transactions p (ts₁ ++ t :: ts₂) = some r ∧ r.reveal_id = t.id := by
  have hfil : (ts₁ ++ t :: ts₂).filterMap (try_strategies (extract_skybox_metadata p)) =
      ts₁.filterMap (try_strategies (extract_skybox_metadata p)) ++
        r :: ts₂.filterMap (try_strategies (extract_skybox_metadata p)) := by
    rw [List.filterMap_append, List.filterMap_cons, hr]
  have hp : pymax ((ts₁ ++ t :: ts₂).filterMap
      (try_strategies (extract_skybox_metadata p))) = some r := by
    rw [hfil]
    refine pymax_first _ r _ ?_ ?_
    · intro x hx
      obtain ⟨t', ht', hf⟩ := List.mem_filterMap.mp hx
      exact h₁ t' ht' x hf
    · intro x hx
      obtain ⟨t', ht', hf⟩ := List.mem_filterMap.mp hx
      exact h₂ t' ht' x hf
  exact ⟨match_transactions_of_pymax hp hq, (try_strategies_ids hr).2⟩

/-! ### Witnesses -/

/-- Witness for C1 at the spec's end-to-end example. -/
theorem C1_order_number_strategy_witness :
    pOrd.externalRef = some "ORD123" ∧
    amountDiff pOrd.total tOrd < 1/100 ∧
    (∃ r, match_transactions pOrd [tOrd] = some r ∧
      r.confidence_score = 1 ∧ "order_number" ∈ r.match_criteria) := by
  have hamt : amountDiff pOrd.total tOrd < 1/100 := by
    norm_num [amountDiff, revealAmount, pOrd, tOrd]
  refine ⟨rfl, hamt, ?_⟩
  exact (C1_order_number_strategy pOrd tOrd [tOrd] "ORD123" rfl (by decide)
    (Or.inl (by decide)) hamt).2 (by simp)

/-- Witness for C2 at a pair whose amounts differ by 65.00. -/
theorem C2_amount_mandatory_witness :
    1 ≤ amountDiff pPlain.total tFar ∧
    try_strategies (extract_skybox_metadata pPlain) tFar = none := by
  have h : 1 ≤ amountDiff pPlain.total tFar := by
    norm_num [amountDiff, revealAmount, pPlain, tFar]
  exact ⟨h, (C2_amount_mandatory pPlain tFar h).1⟩

/-- Witness for C3 at the spec's floor-boundary example (75.00 vs 7500
minor units, same day, no signals beyond amount and date). -/
theorem C3_floor_boundary_witness :
    amountDiff pPlain.total tPlain < 1/100 ∧
    multi_criteria_eval (extract_skybox_metadata pPlain) tPlain =
      some (7/10, ["amount_exact", "date_same_day"]) ∧
    match_transactions pPlain [tPlain] = none := by
  have hamt : amountDiff pPlain.total tPlain < 1/100 := by
    norm_num [amountDiff, revealAmount, pPlain, tPlain]
  obtain ⟨h1, -, h3⟩ := C3_floor_boundary pPlain tPlain rfl hamt rfl (by decide)
  exact ⟨hamt, h1, h3⟩

/-- Witness for C4 at the spec's "adding a matching last-4" example:
exact amount + same day + last-4 yields an accepted 0.90 match. -/
theorem C4_score_monotonic_capped_witness :
    (lastFourSignal (extract_skybox_metadata pNotes) tCard).1 = 20/100 ∧
    (∃ r, match_by_multiple_criteria (extract_skybox_metadata pNotes) tCard = some r ∧
      r.confidence_score = 9/10) := by
  have hext : (extract_skybox_metadata pNotes).last_four = some "9876" := by decide
  have hsig : lastFourSignal (extract_skybox_metadata pNotes) tCard =
      (20/100, ["last_four"]) := by
    unfold lastFourSignal
    rw [hext]
    dsimp only
    rw [if_neg (by decide : ¬("9876" = "")),
      if_pos (by decide : pyIn "9876" (revealLast4 tCard) = true)]
  have hamt : amountDiff (extract_skybox_metadata pNotes).amount tCard < 1/100 := by
    norm_num [amountDiff, revealAmount, extract_skybox_metadata, pNotes, tCard]
  have hdd : dateDiff (extract_skybox_metadata pNotes) tCard ≤ 0 := by
    norm_num [dateDiff, extract_skybox_metadata, pNotes, tCard]
  refine ⟨by rw [hsig], ?_⟩
  exact C4_score_monotonic_capped.2.2.2.2 (extract_skybox_metadata pNotes) tCard
    hamt hdd (by rw [hsig])

/-- Witness for C5 at the accepted 0.90 multi-criteria match. -/
theorem C5_filter_superset_witness :
    (amountDiff pNotes.total tCard < 5 ∧ |tCard.date - pNotes.createdDate| ≤ 7) ∧
      (tCard ∈ [tCard] → tCard ∈ filter_candidate_transactions pNotes [tCard]) := by
  have hext : (extract_skybox_metadata pNotes).last_four = some "9876" := by decide
  have hsig : lastFourSignal (extract_skybox_metadata pNotes) tCard =
      (20/100, ["last_four"]) := by
    unfold lastFourSignal
    rw [hext]
    dsimp only
    rw [if_neg (by decide : ¬("9876" = "")),
      if_pos (by decide : pyIn "9876" (revealLast4 tCard) = true)]
  have hamt : amountDiff (extract_skybox_metadata pNotes).amount tCard < 1/100 := by
    norm_num [amountDiff, revealAmount, extract_skybox_metadata, pNotes, tCard]
  have hdd : dateDiff (extract_skybox_metadata pNotes) tCard ≤ 0 := by
    norm_num [dateDiff, extract_skybox_metadata, pNotes, tCard]
  have heval := multi_criteria_eval_eq (amountSignal_of_lt hamt)
  rw [dateSignal_same_day hdd, hsig] at heval
  have heval' : multi_criteria_eval (extract_skybox_metadata pNotes) tCard =
      some (9/10, ["amount_exact", "date_same_day", "last_four"]) := by
    rw [heval]
    norm_num
  exact C5_filter_superset pNotes tCard _ [tCard]
    (multi_criteria_some_of_high heval' (by norm_num))

/-- Witness for C9 at the empty-notes purchase. -/
theorem C9_extraction_helpers_total_witness :
    lastFourSignal (extract_skybox_metadata pPlain) tPlain = (0, []) ∧
    (multi_criteria_eval (extract_skybox_metadata pPlain) tPlain = none ∨
      ∃ s c, multi_criteria_eval (extract_skybox_metadata pPlain) tPlain = some (s, c) ∧
        "last_four" ∉ c) :=
  C9_extraction_helpers_total.2.2.2.2.2.2.2.2 pPlain tPlain (by decide)

/-- Witness for C10: two equally confident order-number candidates; the
earlier one in the candidate list is returned. -/
theorem C10_first_occurrence_tie_break_witness :
    match_transactions pOrd ([] ++ tOrd :: [tOrd2]) =
      some { skybox_id := 1, reveal_id := 9, confidence_score := 1,
             match_criteria := ["order_number", "amount"],
             metadata := MatchMeta.orderMeta "ORD123" 0 } ∧
    MatchResult.reveal_id
      { skybox_id := 1, reveal_id := 9, confidence_score := 1,
        match_criteria := ["order_number", "amount"],
        metadata := MatchMeta.orderMeta "ORD123" 0 } = tOrd.id := by
  have hamt : amountDiff (extract_skybox_metadata pOrd).amount tOrd < 1/100 := by
    norm_num [amountDiff, revealAmount, extract_skybox_metadata, pOrd, tOrd]
  have hamt2 : amountDiff (extract_skybox_metadata pOrd).amount tOrd2 < 1/100 := by
    norm_num [amountDiff, revealAmount, extract_skybox_metadata, pOrd, tOrd2]
  have hr : try_strategies (extract_skybox_metadata pOrd) tOrd =
      some { skybox_id := 1, reveal_id := 9, confidence_score := 1,
             match_criteria := ["order_number", "amount"],
             metadata := MatchMeta.orderMeta "ORD123" 0 } :=
    try_strategies_of_order
      (@match_by_order_number_eq (extract_skybox_metadata pOrd) tOrd "ORD123" rfl (by decide) (by decide) hamt)
  have hr2 : try_strategies (extract_skybox_metadata pOrd) tOrd2 =
      some { skybox_id := 1, reveal_id := 11, confidence_score := 1,
             match_criteria := ["order_number", "amount"],
             metadata := MatchMeta.orderMeta "ORD123" 0 } :=
    try_strategies_of_order
      (@match_by_order_number_eq (extract_skybox_metadata pOrd) tOrd2 "ORD123" rfl (by decide) (by decide) hamt2)
  refine C10_first_occurrence_tie_break pOrd [] tOrd [tOrd2] _ hr (by norm_num)
    (fun t' ht' => absurd ht' (List.not_mem_nil t')) ?_
  intro t' ht' r' hr'
  rw [List.mem_singleton] at ht'
  subst ht'
  rw [hr2] at hr'
  obtain rfl := Option.some.inj hr'
  exact le_refl _

end LotusTicket
